import Mathlib

/-!
Verification of the ARM accounts-receivable ETL pipeline (`src/processing.py`).

The tabular data is embedded shallowly: a dataframe is a `List` of structure
values, one structure per pipeline stage (pandas column additions/removals
become changes of structure type).  Float arithmetic is modelled exactly over
`ℚ`; the `astype('int')` cast is truncation toward zero (`ratTrunc`); a missing
value (`NaN` from an unmatched left join, or a non-finite division result) is
modelled by `Option`, and the pandas operations that raise on such values
return `Except.error`.  Text is modelled as `String` / `List Char` with the
ASCII case maps of `Char`.

The header-level operations of the source (`adjust_col_headers`,
`adjust_select_columns`, `rename_headers`) act on pandas column labels only and
are absorbed into the structure types themselves: `RawRow` is exactly the
selected, renamed column set.  `convert_float_to_int` fixes the numeric columns
to integers; `RawRow` therefore carries them as `Int`.
-/

namespace EtlArm

/-! ## Small generic helpers (Python / numpy semantics) -/

/-- `np.maximum a b`: the pointwise larger of two (finite) values. -/
def qmax (a b : ℚ) : ℚ := if a ≤ b then b else a

/-- `astype('int')` on a finite float: truncation toward zero. -/
def ratTrunc (q : ℚ) : ℤ := q.num.tdiv q.den

/-- The regex class `\d` (ASCII digits `0`-`9`). -/
def digitB (c : Char) : Bool := 48 ≤ c.toNat && c.toNat ≤ 57

/-- Python `str.lower` on the character list of a string. -/
def lowerChars (l : List Char) : List Char := l.map Char.toLower

/-- Python `str.capitalize`: first character upper-cased, the rest lower-cased. -/
def capChars : List Char → List Char
  | [] => []
  | c :: cs => c.toUpper :: cs.map Char.toLower

/-- Python `str.lower`. -/
def lowerStr (s : String) : String := String.mk (lowerChars s.toList)

/-- Python `str.capitalize`. -/
def capStr (s : String) : String := String.mk (capChars s.toList)

/-- Python `sub in s`: substring containment. -/
def containsSub (pat : List Char) : List Char → Bool
  | [] => pat.isEmpty
  | c :: cs => pat.isPrefixOf (c :: cs) || containsSub pat cs

/-- Python `str.strip` on a character list. -/
def stripChars (l : List Char) : List Char :=
  ((l.dropWhile Char.isWhitespace).reverse.dropWhile Char.isWhitespace).reverse

/-- Python `str.strip`, as used by `trim_string` in the source. -/
def pyStrip (s : String) : String := String.mk (stripChars s.toList)

/-- Python `str.split(sep)` for a one-character separator.
`splitChar sep []` is `[[]]` because `''.split(sep) == ['']`. -/
def splitChar (sep : Char) : List Char → List (List Char)
  | [] => [[]]
  | c :: cs =>
    let r := splitChar sep cs
    if c = sep then [] :: r
    else
      match r with
      | [] => [[c]]
      | h :: t => (c :: h) :: t

/-! ## 1. Extract (`get_date_from_filename`, `date_str_datetime`, `extract_data`) -/

/-- The literal `.xlsx` tail required by the filename regex. -/
def xlsxTail : List Char := ['.', 'x', 'l', 's', 'x']

/-- `re.match(r'^ARM_\d{4}-\d{2}-\d{2}\.xlsx$', file_name)`: the anchored
filename check of `get_date_from_filename`.  `$` also matches just before one
trailing newline, hence the second alternative for the tail. -/
def matchesARM : List Char → Bool
  | a :: r :: m :: u :: y1 :: y2 :: y3 :: y4 :: s1 :: m1 :: m2 :: s2 :: d1 :: d2 :: rest =>
    a == 'A' && r == 'R' && m == 'M' && u == '_' &&
      digitB y1 && digitB y2 && digitB y3 && digitB y4 && s1 == '-' &&
      digitB m1 && digitB m2 && s2 == '-' && digitB d1 && digitB d2 &&
      (rest == xlsxTail || rest == xlsxTail ++ ['\n'])
  | _ => false

/-- `get_date_from_filename`: validate the name against the regex, then return
`file_name.split('_')[1].split('.')[0]`; otherwise raise a format `ValueError`. -/
def get_date_from_filename (file_name : String) : Except String String :=
  if matchesARM file_name.toList then
    .ok (String.mk ((splitChar '.' ((splitChar '_' file_name.toList).getD 1 [])).getD 0 []))
  else
    .error ("File name '" ++ file_name ++ "' does not match format ARM_YYYY-MM-DD.xlsx")

/-- A `datetime.datetime` value restricted to its calendar-date part. -/
structure DateYMD where
  year : Nat
  month : Nat
  day : Nat
deriving DecidableEq

/-- Gregorian leap-year rule used by `datetime`. -/
def isLeap (y : Nat) : Bool := (y % 4 == 0 && y % 100 != 0) || y % 400 == 0

/-- Number of days of month `m` in year `y`. -/
def daysInMonth (y m : Nat) : Nat :=
  if m = 2 then (if isLeap y then 29 else 28)
  else if m = 4 ∨ m = 6 ∨ m = 9 ∨ m = 11 then 30
  else 31

/-- Validity of a calendar date for `datetime` (`MINYEAR = 1`, `MAXYEAR = 9999`). -/
def validDate (y m d : Nat) : Bool :=
  1 ≤ y && y ≤ 9999 && 1 ≤ m && m ≤ 12 && 1 ≤ d && d ≤ daysInMonth y m

/-- Numeric value of an ASCII digit. -/
def digitVal (c : Char) : Nat := c.toNat - 48

/-- `datetime.datetime.strptime(date_str, '%Y-%m-%d')` on the ten-character
`YYYY-MM-DD` strings produced by `get_date_from_filename`: succeeds exactly on
valid calendar dates. -/
def parseDateYMD (s : String) : Option DateYMD :=
  match s.toList with
  | [a, b, c, d, s1, e, f, s2, g, h] =>
    if s1 == '-' && s2 == '-' && digitB a && digitB b && digitB c && digitB d &&
        digitB e && digitB f && digitB g && digitB h then
      let y := ((digitVal a * 10 + digitVal b) * 10 + digitVal c) * 10 + digitVal d
      let mo := digitVal e * 10 + digitVal f
      let dy := digitVal g * 10 + digitVal h
      if validDate y mo dy then some ⟨y, mo, dy⟩ else none
    else none
  | _ => none

/-- `date_str_datetime`: extract the date string from the filename and convert
it; a failed conversion is re-raised as a `ValueError`. -/
def date_str_datetime (file_name : String) : Except String (String × DateYMD) :=
  match get_date_from_filename file_name with
  | .error e => .error e
  | .ok date_str =>
    match parseDateYMD date_str with
    | some d => .ok (date_str, d)
    | none => .error (date_str ++ " cannot be converted. Verify file name.")

/-- ASCII digit character of a value below ten. -/
def digitChar (n : Nat) : Char := Char.ofNat (48 + n)

/-- Modelled from the spec: rendering a calendar date back to the zero-padded
`YYYY-MM-DD` form, the inverse direction of the spec's round-trip property
("the extracted date string round-trips to the same calendar date"); the
source itself never renders a date. -/
def renderDateYMD (d : DateYMD) : String :=
  String.mk [digitChar (d.year / 1000 % 10), digitChar (d.year / 100 % 10),
    digitChar (d.year / 10 % 10), digitChar (d.year % 10), '-',
    digitChar (d.month / 10 % 10), digitChar (d.month % 10), '-',
    digitChar (d.day / 10 % 10), digitChar (d.day % 10)]

/-- Modelled from the spec: the spec's filename pattern `ARM_YYYY-MM-DD.<ext>`
with an arbitrary non-empty extension, for comparison with the code's
`matchesARM` (which fixes the extension to `xlsx`). -/
def specMatchesAnyExt : List Char → Bool
  | 'A' :: 'R' :: 'M' :: '_' :: y1 :: y2 :: y3 :: y4 :: '-' :: m1 :: m2 :: '-' :: d1 :: d2 :: '.' :: rest =>
    digitB y1 && digitB y2 && digitB y3 && digitB y4 && digitB m1 && digitB m2 &&
      digitB d1 && digitB d2 && !rest.isEmpty
  | _ => false

/-- One line of the fixed spreadsheet region, after header normalization,
column selection (`adjust_select_columns`), float-to-int conversion
(`convert_float_to_int`) and positional renaming (`rename_headers`). -/
structure RawRow where
  long_credit_account : String
  debtor_name : String
  country_code : String
  balance : Int
  due1_30d : Int
  due31_60d : Int
  due61_90d : Int
  due91_120d : Int
  due_gt120d : Int
  citotal : Int
  sall12m : Int
  secbank : Int
  secother : Int
deriving DecidableEq

/-- `extract_data`, with the spreadsheet access of `get_data_from_xlsx`
abstracted into `readXlsx` (file parsing is a pure library call, excluded from
the spec's scope).  The filename is trimmed (`trim_string`), the date is taken
from the filename, and only then is the spreadsheet read. -/
def extract_data (readXlsx : String → String → Except String (List RawRow))
    (folder_path file_name : String) : Except String (List RawRow × String × DateYMD) :=
  match date_str_datetime (pyStrip file_name) with
  | .error e => .error e
  | .ok (date_str, date_dt) =>
    match readXlsx (pyStrip folder_path) (pyStrip file_name) with
    | .error e => .error e
    | .ok df => .ok (df, date_str, date_dt)

/-! ## 2. Pre-transform (`filter_positive_balance` … `pre_transform_data`) -/

/-- `filter_positive_balance`: keep rows with `balance > 0`. -/
def filter_positive_balance (df : List RawRow) : List RawRow :=
  df.filter (fun r => 0 < r.balance)

/-- The fixed debtor-name exclusion list of `filter_col_debtor_name`. -/
def debtors_to_drop : List String := ["aaa", "bbb", "ccc", "ddd", "eee"]

/-- `df['debtor_name'].str.contains('aaa|bbb|ccc|ddd|eee')`: the alternation of
literal substrings, i.e. "contains any of them". -/
def containsAnyDebtor (s : String) : Bool :=
  debtors_to_drop.any (fun d => containsSub d.toList s.toList)

/-- `filter_col_debtor_name`: lower-case every debtor name, drop the rows whose
name contains an excluded substring, capitalize the names of the kept rows. -/
def filter_col_debtor_name (df : List RawRow) : List RawRow :=
  (((df.map (fun r => { r with debtor_name := lowerStr r.debtor_name })).filter
    (fun r => !containsAnyDebtor r.debtor_name)).map
    (fun r => { r with debtor_name := capStr r.debtor_name }))

/-- A row after `split_col_long_credit_account`: the encoded account identifier
is replaced by its second and third `/`-separated parts (the first part,
`col_to_del`, is dropped together with the original column). -/
structure SplitRow where
  debtor_name : String
  country_code : String
  balance : Int
  due1_30d : Int
  due31_60d : Int
  due61_90d : Int
  due91_120d : Int
  due_gt120d : Int
  citotal : Int
  sall12m : Int
  secbank : Int
  secother : Int
  entity_code : String
  credit_account : String
deriving DecidableEq

/-- `split_col_long_credit_account`: `str.split('/', expand=True)` keeping
parts 1 and 2 as `entity_code` and `credit_account`. -/
def split_col_long_credit_account (df : List RawRow) : List SplitRow :=
  df.map (fun r =>
    let parts := splitChar '/' r.long_credit_account.toList
    { debtor_name := r.debtor_name, country_code := r.country_code,
      balance := r.balance, due1_30d := r.due1_30d, due31_60d := r.due31_60d,
      due61_90d := r.due61_90d, due91_120d := r.due91_120d,
      due_gt120d := r.due_gt120d, citotal := r.citotal, sall12m := r.sall12m,
      secbank := r.secbank, secother := r.secother,
      entity_code := String.mk (parts.getD 1 []),
      credit_account := String.mk (parts.getD 2 []) })

/-- The fixed entity-code exclusion list of `filter_col_entity_code`. -/
def entity_code_to_drop : List String := ["1", "2", "3", "4"]

/-- `df['entity_code'].str.contains('1|2|3|4')`. -/
def containsAnyEntity (s : String) : Bool :=
  entity_code_to_drop.any (fun d => containsSub d.toList s.toList)

/-- `filter_col_entity_code`: drop rows whose `entity_code` contains any of the
excluded codes (substring, not full match). -/
def filter_col_entity_code (df : List SplitRow) : List SplitRow :=
  df.filter (fun r => !containsAnyEntity r.entity_code)

/-- A row after `add_col_security`: `secbank` and `secother` are replaced by
their sum `security`. -/
structure MainRow where
  debtor_name : String
  country_code : String
  balance : Int
  due1_30d : Int
  due31_60d : Int
  due61_90d : Int
  due91_120d : Int
  due_gt120d : Int
  citotal : Int
  sall12m : Int
  entity_code : String
  credit_account : String
  security : Int
deriving DecidableEq

/-- `add_col_security`. -/
def add_col_security (df : List SplitRow) : List MainRow :=
  df.map (fun r =>
    { debtor_name := r.debtor_name, country_code := r.country_code,
      balance := r.balance, due1_30d := r.due1_30d, due31_60d := r.due31_60d,
      due61_90d := r.due61_90d, due91_120d := r.due91_120d,
      due_gt120d := r.due_gt120d, citotal := r.citotal, sall12m := r.sall12m,
      entity_code := r.entity_code, credit_account := r.credit_account,
      security := r.secbank + r.secother })

/-- `pre_transform_data`: the composition of the pre-transform steps, in source
order (the three header-level steps are absorbed into `RawRow`, see the module
comment). -/
def pre_transform_data (df : List RawRow) : List MainRow :=
  add_col_security (filter_col_entity_code (split_col_long_credit_account
    (filter_col_debtor_name (filter_positive_balance df))))

/-! ## 3. Transform (`join_main_and_dregion` … `get_agg_by_entity_country`) -/

/-- One row of the region reference table after `get_regions_df` dropped
`entity_name` and `vat_insured`: the typed `entity_code`/`tax_rate` columns and
the `region` column used later for grouping. -/
structure RegionRow where
  entity_code : String
  tax_rate : ℚ
  region : String
deriving DecidableEq

/-- A row of `pd.merge(df_main, d_region, how='left', on='entity_code')`:
the main columns plus the region columns, which are missing (`NaN`) when no
region row matches the `entity_code`. -/
structure JoinedRow where
  debtor_name : String
  country_code : String
  balance : Int
  due1_30d : Int
  due31_60d : Int
  due61_90d : Int
  due91_120d : Int
  due_gt120d : Int
  citotal : Int
  sall12m : Int
  entity_code : String
  credit_account : String
  security : Int
  tax_rate : Option ℚ
  region : Option String
deriving DecidableEq

/-- The joined row produced for main row `m` and matching region row `e`. -/
def joinMatched (m : MainRow) (e : RegionRow) : JoinedRow :=
  { debtor_name := m.debtor_name, country_code := m.country_code,
    balance := m.balance, due1_30d := m.due1_30d, due31_60d := m.due31_60d,
    due61_90d := m.due61_90d, due91_120d := m.due91_120d,
    due_gt120d := m.due_gt120d, citotal := m.citotal, sall12m := m.sall12m,
    entity_code := m.entity_code, credit_account := m.credit_account,
    security := m.security, tax_rate := some e.tax_rate, region := some e.region }

/-- The joined row produced for a main row with no match: null region columns. -/
def joinUnmatched (m : MainRow) : JoinedRow :=
  { debtor_name := m.debtor_name, country_code := m.country_code,
    balance := m.balance, due1_30d := m.due1_30d, due31_60d := m.due31_60d,
    due61_90d := m.due61_90d, due91_120d := m.due91_120d,
    due_gt120d := m.due_gt120d, citotal := m.citotal, sall12m := m.sall12m,
    entity_code := m.entity_code, credit_account := m.credit_account,
    security := m.security, tax_rate := none, region := none }

/-- `join_main_and_dregion`: left join on `entity_code`, preserving the left
order, each left row once per matching region row, or once with nulls if there
is no match. -/
def join_main_and_dregion (df_main : List MainRow) (d_region : List RegionRow) :
    List JoinedRow :=
  df_main.flatMap (fun m =>
    match d_region.filter (fun e => e.entity_code == m.entity_code) with
    | [] => [joinUnmatched m]
    | ms => ms.map (joinMatched m))

/-- A row after `calculate_uninsured_balance`: `tax_rate` is dropped and
`uninsured_balance` added. -/
structure CalcRow where
  debtor_name : String
  country_code : String
  balance : Int
  due1_30d : Int
  due31_60d : Int
  due61_90d : Int
  due91_120d : Int
  due_gt120d : Int
  citotal : Int
  sall12m : Int
  entity_code : String
  credit_account : String
  security : Int
  region : Option String
  uninsured_balance : Int
deriving DecidableEq

/-- The error message wrapped around any failure inside
`calculate_uninsured_balance`. -/
def calcErrMsg : String := "Error while calculating uninsured balance"

/-- The per-row value `int(np.maximum((balance - security) / (1 + tax_rate) - citotal, 0))`
for a finite tax rate with `1 + tax_rate ≠ 0`. -/
def uninsuredOf (t : ℚ) (j : JoinedRow) : Int :=
  ratTrunc (qmax (((j.balance : ℚ) - (j.security : ℚ)) / (1 + t) - (j.citotal : ℚ)) 0)

/-- The `CalcRow` produced from a joined row whose uninsured balance is `u`. -/
def calcRowOf (j : JoinedRow) (u : Int) : CalcRow :=
  { debtor_name := j.debtor_name, country_code := j.country_code,
    balance := j.balance, due1_30d := j.due1_30d, due31_60d := j.due31_60d,
    due61_90d := j.due61_90d, due91_120d := j.due91_120d,
    due_gt120d := j.due_gt120d, citotal := j.citotal, sall12m := j.sall12m,
    entity_code := j.entity_code, credit_account := j.credit_account,
    security := j.security, region := j.region, uninsured_balance := u }

/-- `calculate_uninsured_balance`: compute
`np.maximum((balance - security)/(1 + tax_rate) - citotal, 0).astype('int')`
column-wise.  A null `tax_rate` makes the row's value `NaN`, and a zero
`1 + tax_rate` makes it non-finite; in either case the `astype('int')` cast of
the column raises, which the source re-raises as a generic exception. -/
def calculate_uninsured_balance : List JoinedRow → Except String (List CalcRow)
  | [] => .ok []
  | j :: js =>
    match j.tax_rate with
    | none => .error calcErrMsg
    | some t =>
      if 1 + t = 0 then .error calcErrMsg
      else
        match calculate_uninsured_balance js with
        | .error e => .error e
        | .ok cs => .ok (calcRowOf j (uninsuredOf t j) :: cs)

/-- Descending order by `balance`, the order of `nlargest(40, 'balance')`. -/
def balGE (a b : CalcRow) : Prop := b.balance ≤ a.balance

instance : DecidableRel balGE := fun a b => inferInstanceAs (Decidable (b.balance ≤ a.balance))

instance : IsTotal CalcRow balGE := ⟨fun a b => le_total b.balance a.balance⟩

instance : IsTrans CalcRow balGE := ⟨fun _ _ _ hab hbc => le_trans hbc hab⟩

/-- `x.nlargest(n, 'balance')`: the first `n` rows of the stable descending
sort by `balance` (`keep='first'`). -/
def nlargestBalance (n : Nat) (rows : List CalcRow) : List CalcRow :=
  (List.insertionSort balGE rows).take n

/-- The group of rows carrying region `r` (rows with a null region are dropped
by `groupby`). -/
def rowsOfRegion (df : List CalcRow) (r : String) : List CalcRow :=
  df.filter (fun c => c.region == some r)

/-- The distinct non-null region keys, in the ascending order `groupby` uses. -/
def regionKeys (df : List CalcRow) : List String :=
  List.insertionSort (fun a b => a ≤ b) (df.filterMap (fun c => c.region)).dedup

/-- The per-group computation of `get_top40_by_region`. -/
def top40ForRegion (df : List CalcRow) (r : String) : List CalcRow :=
  nlargestBalance 40 (rowsOfRegion df r)

/-- A row of the top-40 report: the `region` grouping column is dropped, the
remaining columns are reordered to a fixed order and the reporting date is
prepended. -/
structure Top40Row where
  date : DateYMD
  entity_code : String
  credit_account : String
  debtor_name : String
  country_code : String
  balance : Int
  uninsured_balance : Int
  citotal : Int
  security : Int
  due1_30d : Int
  due31_60d : Int
  due61_90d : Int
  due91_120d : Int
  due_gt120d : Int
  sall12m : Int
deriving DecidableEq

/-- Column selection/reordering and date prepending of `get_top40_by_region`. -/
def toTop40Row (d : DateYMD) (c : CalcRow) : Top40Row :=
  { date := d, entity_code := c.entity_code, credit_account := c.credit_account,
    debtor_name := c.debtor_name, country_code := c.country_code,
    balance := c.balance, uninsured_balance := c.uninsured_balance,
    citotal := c.citotal, security := c.security, due1_30d := c.due1_30d,
    due31_60d := c.due31_60d, due61_90d := c.due61_90d,
    due91_120d := c.due91_120d, due_gt120d := c.due_gt120d,
    sall12m := c.sall12m }

/-- `get_top40_by_region`: `groupby('region').apply(lambda x: x.nlargest(40, 'balance'))`,
flattened in ascending key order, region column dropped, columns reordered,
date inserted. -/
def get_top40_by_region (df : List CalcRow) (reporting_date : DateYMD) : List Top40Row :=
  ((regionKeys df).flatMap (top40ForRegion df)).map (toTop40Row reporting_date)

/-- A row of the aggregate report: the two grouping keys, the eight summed
columns, and the reporting date prepended. -/
structure AggRow where
  date : DateYMD
  entity_code : String
  country_code : String
  balance : Int
  uninsured_balance : Int
  due1_30d : Int
  due31_60d : Int
  due61_90d : Int
  due91_120d : Int
  due_gt120d : Int
  sall12m : Int
deriving DecidableEq

/-- Ascending order on the `(entity_code, country_code)` group keys. -/
def pairLe (a b : String × String) : Prop :=
  a.1 < b.1 ∨ (a.1 = b.1 ∧ a.2 ≤ b.2)

instance : DecidableRel pairLe := fun a b =>
  inferInstanceAs (Decidable (a.1 < b.1 ∨ (a.1 = b.1 ∧ a.2 ≤ b.2)))

instance : IsTotal (String × String) pairLe := by
  constructor
  intro a b
  rcases lt_trichotomy a.1 b.1 with h | h | h
  · exact Or.inl (Or.inl h)
  · rcases le_total a.2 b.2 with h2 | h2
    · exact Or.inl (Or.inr ⟨h, h2⟩)
    · exact Or.inr (Or.inr ⟨h.symm, h2⟩)
  · exact Or.inr (Or.inl h)

instance : IsTrans (String × String) pairLe := by
  constructor
  intro a b c hab hbc
  rcases hab with h1 | ⟨h1, h1'⟩
  · rcases hbc with h2 | ⟨h2, _⟩
    · exact Or.inl (lt_trans h1 h2)
    · exact Or.inl (h2 ▸ h1)
  · rcases hbc with h2 | ⟨h2, h2'⟩
    · exact Or.inl (h1 ▸ h2)
    · exact Or.inr ⟨h1.trans h2, le_trans h1' h2'⟩

/-- The group key of a row for the aggregate report. -/
def aggKey (c : CalcRow) : String × String := (c.entity_code, c.country_code)

/-- The distinct `(entity_code, country_code)` keys, in ascending order. -/
def aggKeys (df : List CalcRow) : List (String × String) :=
  List.insertionSort pairLe (df.map aggKey).dedup

/-- The group of rows with key `k`. -/
def rowsOfKey (df : List CalcRow) (k : String × String) : List CalcRow :=
  df.filter (fun c => aggKey c == k)

/-- Sum of one numeric column over a group. -/
def sumBy (f : CalcRow → Int) (l : List CalcRow) : Int := (l.map f).sum

/-- `get_agg_by_entity_country`: group by `(entity_code, country_code)`, sum
the eight numeric columns, prepend the reporting date. -/
def get_agg_by_entity_country (df : List CalcRow) (reporting_date : DateYMD) : List AggRow :=
  (aggKeys df).map (fun k =>
    let g := rowsOfKey df k
    { date := reporting_date, entity_code := k.1, country_code := k.2,
      balance := sumBy (fun c => c.balance) g,
      uninsured_balance := sumBy (fun c => c.uninsured_balance) g,
      due1_30d := sumBy (fun c => c.due1_30d) g,
      due31_60d := sumBy (fun c => c.due31_60d) g,
      due61_90d := sumBy (fun c => c.due61_90d) g,
      due91_120d := sumBy (fun c => c.due91_120d) g,
      due_gt120d := sumBy (fun c => c.due_gt120d) g,
      sall12m := sumBy (fun c => c.sall12m) g })

/-- `transform_data`, with the region reference table passed as data
(`get_regions_df` is CSV parsing plus column drops, excluded file access). -/
def transform_data (df_main : List RawRow) (reporting_date : DateYMD)
    (d_region : List RegionRow) : Except String (List Top40Row × List AggRow) := do
  let m := pre_transform_data df_main
  let j := join_main_and_dregion m d_region
  let c ← calculate_uninsured_balance j
  .ok (get_top40_by_region c reporting_date, get_agg_by_entity_country c reporting_date)

/-! ## 4. Parameter loading (`etl_parameter_path`) -/

/-- One update of the Python dict built by
`parameters.set_index('Description')['Path'].to_dict()`: an existing
`Description` key keeps its position but takes the later `Path` value, a new
key is appended. -/
def updateParamDict (acc : List (String × String)) (kv : String × String) :
    List (String × String) :=
  if acc.any (fun p => p.1 == kv.1) then
    acc.map (fun p => if p.1 == kv.1 then (p.1, kv.2) else p)
  else acc ++ [kv]

/-- The dict keyed on the `Description` column, in Python insertion order. -/
def toParamDict (rows : List (String × String)) : List (String × String) :=
  rows.foldl updateParamDict []

/-- `etl_parameter_path` on the `(Description, Path)` rows of the
`etl_parameters` sheet: unpacking `tuple(parameter_paths.values())` into three
names raises a `ValueError` unless the dict has exactly three entries. -/
def etl_parameter_path (rows : List (String × String)) :
    Except String (String × String × String) :=
  match toParamDict rows with
  | [a, b, c] => .ok (a.2, b.2, c.2)
  | _ => .error "The 'etl_parameters' sheet must contain exactly three rows."

/-! ## Helper lemmas -/

theorem charToNat_ofNat {n : Nat} (h : n < 55296) : (Char.ofNat n).toNat = n := by
  have hv : n.isValidChar := Or.inl h
  rw [Char.ofNat, dif_pos hv]
  simp [Char.ofNatAux, Char.toNat]
  rfl

theorem toLower_eq (c : Char) :
    c.toLower = if 65 ≤ c.toNat ∧ c.toNat ≤ 90 then Char.ofNat (c.toNat + 32) else c := rfl

theorem toUpper_eq (c : Char) :
    c.toUpper = if 97 ≤ c.toNat ∧ c.toNat ≤ 122 then Char.ofNat (c.toNat - 32) else c := rfl

theorem toLower_toLower (c : Char) : c.toLower.toLower = c.toLower := by
  rw [toLower_eq c]
  by_cases h : 65 ≤ c.toNat ∧ c.toNat ≤ 90
  · rw [if_pos h, toLower_eq]
    have ht : (Char.ofNat (c.toNat + 32)).toNat = c.toNat + 32 := charToNat_ofNat (by omega)
    rw [ht, if_neg (by omega)]
  · rw [if_neg h, toLower_eq, if_neg h]

theorem toLower_toUpper_toLower (c : Char) : c.toLower.toUpper.toLower = c.toLower := by
  by_cases h : 65 ≤ c.toNat ∧ c.toNat ≤ 90
  · rw [toLower_eq c, if_pos h]
    have ht : (Char.ofNat (c.toNat + 32)).toNat = c.toNat + 32 := charToNat_ofNat (by omega)
    rw [toUpper_eq, ht, if_pos (by omega)]
    have h32 : c.toNat + 32 - 32 = c.toNat := by omega
    rw [h32, toLower_eq]
    have ht2 : (Char.ofNat c.toNat).toNat = c.toNat := charToNat_ofNat (by omega)
    rw [ht2, if_pos h]
  · rw [toLower_eq c, if_neg h, toUpper_eq]
    by_cases h2 : 97 ≤ c.toNat ∧ c.toNat ≤ 122
    · rw [if_pos h2, toLower_eq]
      have ht : (Char.ofNat (c.toNat - 32)).toNat = c.toNat - 32 := charToNat_ofNat (by omega)
      rw [ht, if_pos (by omega)]
      have h32 : c.toNat - 32 + 32 = c.toNat := by omega
      rw [h32, Char.ofNat_toNat]
    · rw [if_neg h2, toLower_eq, if_neg h]

theorem lowerChars_lowerChars (l : List Char) :
    lowerChars (lowerChars l) = lowerChars l := by
  simp [lowerChars, Function.comp_def, toLower_toLower]

theorem lowerChars_capChars_lowerChars (l : List Char) :
    lowerChars (capChars (lowerChars l)) = lowerChars l := by
  cases l with
  | nil => rfl
  | cons c cs =>
    simp only [lowerChars, capChars, List.map_cons, List.map_map]
    refine congrArg₂ _ (toLower_toUpper_toLower c) ?_
    simp [Function.comp_def, toLower_toLower]

theorem lowerStr_capStr_lowerStr (s : String) :
    lowerStr (capStr (lowerStr s)) = lowerStr s := by
  simp [lowerStr, capStr, lowerChars_capChars_lowerChars]

theorem splitChar_of_not_mem {sep : Char} {l : List Char} (h : sep ∉ l) :
    splitChar sep l = [l] := by
  induction l with
  | nil => rfl
  | cons c cs ih =>
    have hc : c ≠ sep := fun he => h (he ▸ List.mem_cons_self c cs)
    have hcs : sep ∉ cs := fun hm => h (List.mem_cons_of_mem c hm)
    rw [splitChar, if_neg hc, ih hcs]

theorem splitChar_append {sep : Char} {l r : List Char} (h : sep ∉ l) :
    splitChar sep (l ++ sep :: r) = l :: splitChar sep r := by
  induction l with
  | nil =>
    simp only [List.nil_append]
    rw [splitChar, if_pos rfl]
  | cons c cs ih =>
    have hc : c ≠ sep := fun he => h (he ▸ List.mem_cons_self c cs)
    have hcs : sep ∉ cs := fun hm => h (List.mem_cons_of_mem c hm)
    rw [List.cons_append, splitChar, if_neg hc, ih hcs]

theorem sum_map_add {κ : Type} (keys : List κ) (f g : κ → Int) :
    (keys.map (fun k => f k + g k)).sum = (keys.map f).sum + (keys.map g).sum := by
  induction keys with
  | nil => simp
  | cons k ks ih => simp [ih]; ring

theorem sum_indicator_zero {κ : Type} [BEq κ] [LawfulBEq κ] (keys : List κ) (k0 : κ)
    (c : Int) (h : k0 ∉ keys) : (keys.map (fun k => if k0 == k then c else 0)).sum = 0 := by
  induction keys with
  | nil => rfl
  | cons k ks ih =>
    have hk : ¬(k0 == k) = true := by
      simp only [beq_iff_eq]
      exact fun he => h (he ▸ List.mem_cons_self k ks)
    have hks : k0 ∉ ks := fun hm => h (List.mem_cons_of_mem k hm)
    simp [hk, ih hks]

theorem sum_indicator_one {κ : Type} [BEq κ] [LawfulBEq κ] (keys : List κ) (k0 : κ)
    (c : Int) (hnd : keys.Nodup) (hmem : k0 ∈ keys) :
    (keys.map (fun k => if k0 == k then c else 0)).sum = c := by
  induction keys with
  | nil => cases hmem
  | cons k ks ih =>
    rcases List.mem_cons.mp hmem with he | hm
    · have hk : (k0 == k) = true := by simp [he]
      have hnotin : k0 ∉ ks := he ▸ (List.nodup_cons.mp hnd).1
      rw [List.map_cons, List.sum_cons, if_pos hk, sum_indicator_zero ks k0 c hnotin]
      ring
    · have hk : ¬(k0 == k) = true := by
        simp only [beq_iff_eq]
        intro he
        exact (List.nodup_cons.mp hnd).1 (he ▸ hm)
      rw [List.map_cons, List.sum_cons, if_neg hk, ih (List.nodup_cons.mp hnd).2 hm]
      ring

theorem sum_filter_partition {α κ : Type} [BEq κ] [LawfulBEq κ] (keys : List κ)
    (df : List α) (key : α → κ) (f : α → Int) (hnd : keys.Nodup)
    (hc : ∀ x ∈ df, key x ∈ keys) :
    (keys.map (fun k => ((df.filter (fun x => key x == k)).map f).sum)).sum
      = (df.map f).sum := by
  induction df with
  | nil => simp
  | cons x xs ih =>
    have hsplit : ∀ k : κ, ((List.filter (fun a => key a == k) (x :: xs)).map f).sum
        = (if key x == k then f x else 0)
          + ((List.filter (fun a => key a == k) xs).map f).sum := by
      intro k
      rw [List.filter_cons]
      by_cases hxk : (key x == k) = true
      · rw [if_pos hxk, if_pos hxk]
        simp
      · rw [if_neg hxk, if_neg hxk]
        ring
    calc (keys.map (fun k => ((List.filter (fun a => key a == k) (x :: xs)).map f).sum)).sum
        = (keys.map (fun k => (if key x == k then f x else 0)
            + ((List.filter (fun a => key a == k) xs).map f).sum)).sum := by
          exact congrArg _ (List.map_congr_left (fun k _ => hsplit k))
      _ = (keys.map (fun k => if key x == k then f x else 0)).sum
            + (keys.map (fun k => ((List.filter (fun a => key a == k) xs).map f).sum)).sum :=
          sum_map_add keys _ _
      _ = f x + (xs.map f).sum := by
          rw [sum_indicator_one keys (key x) (f x) hnd (hc x (List.mem_cons_self x xs)),
            ih (fun a ha => hc a (List.mem_cons_of_mem x ha))]
      _ = ((x :: xs).map f).sum := by simp

theorem qmax_nonneg_right (a : ℚ) : 0 ≤ qmax a 0 := by
  unfold qmax
  by_cases h : a ≤ 0
  · rw [if_pos h]
  · rw [if_neg h]
    exact le_of_not_le h

theorem ratTrunc_nonneg {q : ℚ} (h : 0 ≤ q) : 0 ≤ ratTrunc q := by
  have h1 : 0 ≤ q.num := Rat.num_nonneg.mpr h
  exact Int.tdiv_nonneg h1 (by positivity)

theorem uninsuredOf_nonneg (t : ℚ) (j : JoinedRow) : 0 ≤ uninsuredOf t j :=
  ratTrunc_nonneg (qmax_nonneg_right _)

theorem calculate_ok_mem {df : List JoinedRow} {out : List CalcRow}
    (h : calculate_uninsured_balance df = .ok out) :
    ∀ c ∈ out, ∃ j ∈ df, ∃ t : ℚ,
      j.tax_rate = some t ∧ c = calcRowOf j (uninsuredOf t j) := by
  induction df generalizing out with
  | nil =>
    simp only [calculate_uninsured_balance, Except.ok.injEq] at h
    subst h
    intro c hc
    cases hc
  | cons j js ih =>
    simp only [calculate_uninsured_balance] at h
    split at h
    · cases h
    · rename_i t htx
      split at h
      · cases h
      · split at h
        · cases h
        · rename_i cs hcalc
          simp only [Except.ok.injEq] at h
          subst h
          intro c hc
          rcases List.mem_cons.mp hc with he | hm
          · exact ⟨j, List.mem_cons_self j js, t, htx, he⟩
          · rcases ih hcalc c hm with ⟨j', hj', t', ht', hc'⟩
            exact ⟨j', List.mem_cons_of_mem j hj', t', ht', hc'⟩

theorem calc_error_of_none {df : List JoinedRow} (h : ∃ j ∈ df, j.tax_rate = none) :
    calculate_uninsured_balance df = .error calcErrMsg := by
  induction df with
  | nil => rcases h with ⟨j, hj, _⟩; cases hj
  | cons j js ih =>
    rcases h with ⟨j0, hj0, hn⟩
    rcases List.mem_cons.mp hj0 with he | hm
    · subst he
      simp only [calculate_uninsured_balance]
      rw [hn]
    · simp only [calculate_uninsured_balance]
      split
      · rfl
      · split
        · rfl
        · rw [ih ⟨j0, hm, hn⟩]

theorem mem_join {main : List MainRow} {dreg : List RegionRow} {j : JoinedRow}
    (h : j ∈ join_main_and_dregion main dreg) :
    ∃ m ∈ main, j.balance = m.balance ∧ j.debtor_name = m.debtor_name ∧
      j.entity_code = m.entity_code := by
  rcases List.mem_flatMap.mp h with ⟨m, hm, hj⟩
  refine ⟨m, hm, ?_⟩
  cases hf : dreg.filter (fun e => e.entity_code == m.entity_code) with
  | nil =>
    rw [hf] at hj
    rcases List.mem_singleton.mp hj with rfl
    exact ⟨rfl, rfl, rfl⟩
  | cons e es =>
    rw [hf] at hj
    rcases List.mem_map.mp hj with ⟨e', _, rfl⟩
    exact ⟨rfl, rfl, rfl⟩

theorem join_unmatched_mem {main : List MainRow} {dreg : List RegionRow} {m : MainRow}
    (hm : m ∈ main) (hno : ∀ e ∈ dreg, e.entity_code ≠ m.entity_code) :
    joinUnmatched m ∈ join_main_and_dregion main dreg := by
  apply List.mem_flatMap.mpr
  refine ⟨m, hm, ?_⟩
  have hf : dreg.filter (fun e => e.entity_code == m.entity_code) = [] := by
    rw [List.filter_eq_nil_iff]
    intro e he
    simp [hno e he]
  rw [hf]
  exact List.mem_singleton.mpr rfl

/-! ## Claim C2 -/

/-- C2: every row retained after the transform stage — i.e. every row of the
table `calculate_uninsured_balance` successfully produces, which is the joined
table both output views are computed from — has `uninsured_balance ≥ 0`. -/
theorem c2_uninsured_balance_nonneg (df : List JoinedRow) (out : List CalcRow)
    (h : calculate_uninsured_balance df = .ok out) :
    ∀ c ∈ out, 0 ≤ c.uninsured_balance := by
  intro c hc
  rcases calculate_ok_mem h c hc with ⟨j, _, t, _, hce⟩
  rw [hce]
  exact uninsuredOf_nonneg t j

/-- A joined row with a zero tax rate, for the C2 witness. -/
def c2Joined : JoinedRow :=
  { debtor_name := "Good Corp", country_code := "PL", balance := 10,
    due1_30d := 0, due31_60d := 0, due61_90d := 0, due91_120d := 0,
    due_gt120d := 0, citotal := 0, sall12m := 0, entity_code := "567",
    credit_account := "890", security := 0, tax_rate := some 0,
    region := some "EU" }

/-- C2 witness: the one-row table with tax rate `0` computes successfully and
its row has a non-negative uninsured balance. -/
theorem c2_uninsured_balance_nonneg_witness :
    0 ≤ (calcRowOf c2Joined (uninsuredOf 0 c2Joined)).uninsured_balance := by
  have hcalc : calculate_uninsured_balance [c2Joined]
      = .ok [calcRowOf c2Joined (uninsuredOf 0 c2Joined)] := by
    have htax : c2Joined.tax_rate = some 0 := rfl
    simp only [calculate_uninsured_balance, htax]
    norm_num
  exact c2_uninsured_balance_nonneg [c2Joined] _ hcalc _ (List.mem_singleton.mpr rfl)

/-! ## Claim C4 -/

/-- C4: the aggregate-by-entity-country view conserves total balance: the sum
of `balance` over all output rows equals the sum of `balance` over the rows of
the (filtered, joined) input table. -/
theorem c4_agg_conserves_balance (df : List CalcRow) (d : DateYMD) :
    ((get_agg_by_entity_country df d).map (fun a => a.balance)).sum
      = (df.map (fun c => c.balance)).sum := by
  have hnd : (aggKeys df).Nodup :=
    (List.perm_insertionSort pairLe _).nodup_iff.mpr (List.nodup_dedup _)
  have hmem : ∀ c ∈ df, aggKey c ∈ aggKeys df := by
    intro c hc
    exact (List.perm_insertionSort pairLe _).mem_iff.mpr
      (List.mem_dedup.mpr (List.mem_map_of_mem aggKey hc))
  have hpart := sum_filter_partition (aggKeys df) df aggKey
    (fun c => c.balance) hnd hmem
  simpa [get_agg_by_entity_country, Function.comp_def, sumBy, rowsOfKey] using hpart

/-! ## Claim C6 -/

/-- A pre-transformed row whose entity code has no region entry, for C6. -/
def c6Main : MainRow :=
  { debtor_name := "Good Corp", country_code := "PL", balance := 100,
    due1_30d := 0, due31_60d := 0, due61_90d := 0, due91_120d := 0,
    due_gt120d := 0, citotal := 0, sall12m := 0, entity_code := "567",
    credit_account := "890", security := 0 }

/-- A region table whose only entry does not match `c6Main`. -/
def c6Region : RegionRow :=
  { entity_code := "999", tax_rate := mkRat 1 10, region := "EU" }

/-- C6 counterexample: for the row with entity code `567` and a region table
holding only entity code `999`, the left join does produce a null `tax_rate`,
but the downstream uninsured-balance arithmetic then fails with an error
instead of propagating the null as a missing value. -/
theorem c6_counterexample :
    join_main_and_dregion [c6Main] [c6Region] = [joinUnmatched c6Main] ∧
    (joinUnmatched c6Main).tax_rate = none ∧
    calculate_uninsured_balance (join_main_and_dregion [c6Main] [c6Region])
      = .error calcErrMsg := by
  have hjoin : join_main_and_dregion [c6Main] [c6Region] = [joinUnmatched c6Main] := by
    decide
  refine ⟨hjoin, rfl, ?_⟩
  rw [hjoin]
  rfl

/-- C6 amended: a row whose `entity_code` matches no region entry is joined
with a null `tax_rate`; any joined table containing such a row then makes
`calculate_uninsured_balance` fail (the integer cast of a column holding a
missing value raises), rather than propagating the null into the views. -/
theorem c6_null_tax_rate_fails (main : List MainRow) (dreg : List RegionRow)
    (m : MainRow) (hm : m ∈ main)
    (hno : ∀ e ∈ dreg, e.entity_code ≠ m.entity_code) :
    joinUnmatched m ∈ join_main_and_dregion main dreg ∧
    (joinUnmatched m).tax_rate = none ∧
    ∀ df : List JoinedRow, joinUnmatched m ∈ df →
      calculate_uninsured_balance df = .error calcErrMsg :=
  ⟨join_unmatched_mem hm hno, rfl,
    fun _ hdf => calc_error_of_none ⟨joinUnmatched m, hdf, rfl⟩⟩

/-- C6 witness: the amended statement instantiated at the concrete unmatched
row, the one-entry region table and the one-row joined table. -/
theorem c6_null_tax_rate_fails_witness :
    joinUnmatched c6Main ∈ join_main_and_dregion [c6Main] [c6Region] ∧
    (joinUnmatched c6Main).tax_rate = none ∧
    calculate_uninsured_balance [joinUnmatched c6Main] = .error calcErrMsg := by
  have h := c6_null_tax_rate_fails [c6Main] [c6Region] c6Main (by decide) (by decide)
  exact ⟨h.1, h.2.1, h.2.2 [joinUnmatched c6Main] (List.mem_singleton.mpr rfl)⟩

/-! ## Claim C10 -/

/-- `etl_parameter_path` raises the three-rows `ValueError` whenever the dict
does not have exactly three entries. -/
theorem etl_parameter_path_error_of_length {rows : List (String × String)}
    (h : (toParamDict rows).length ≠ 3) :
    etl_parameter_path rows
      = .error "The 'etl_parameters' sheet must contain exactly three rows." := by
  unfold etl_parameter_path
  rcases hd : toParamDict rows with _ | ⟨a, _ | ⟨b, _ | ⟨c, _ | ⟨d, t⟩⟩⟩⟩ <;>
    first
      | rfl
      | (exact absurd (by rw [hd]; rfl) h)

/-- C10: with the parameter sheet read into `(Description, Path)` rows, two of
three rows sharing a `Description` collapse in the dict keyed on that column,
so `etl_parameter_path` raises the "must contain exactly three rows"
`ValueError` even though the sheet has exactly three rows. -/
theorem c10_duplicate_description_error (r1 r2 r3 : String × String)
    (h : r1.1 = r2.1 ∨ r1.1 = r3.1 ∨ r2.1 = r3.1) :
    etl_parameter_path [r1, r2, r3]
      = .error "The 'etl_parameters' sheet must contain exactly three rows." := by
  apply etl_parameter_path_error_of_length
  have hfold : toParamDict [r1, r2, r3]
      = updateParamDict (updateParamDict (updateParamDict [] r1) r2) r3 := rfl
  have e1 : updateParamDict [] r1 = [r1] := by simp [updateParamDict]
  by_cases h12 : r1.1 = r2.1
  · have e2 : updateParamDict [r1] r2 = [(r1.1, r2.2)] := by
      simp [updateParamDict, h12]
    rw [hfold, e1, e2]
    by_cases h13 : r1.1 = r3.1
    · simp [updateParamDict, h13]
    · simp [updateParamDict, h13]
  · have e2 : updateParamDict [r1] r2 = [r1, r2] := by
      simp [updateParamDict, h12]
    rw [hfold, e1, e2]
    rcases h with h' | h13 | h23
    · exact absurd h' h12
    · simp [updateParamDict, h13]
    · simp [updateParamDict, h23]

/-- C10 witness: a concrete three-row sheet with a duplicated description. -/
theorem c10_duplicate_description_error_witness :
    etl_parameter_path [("raw data folder", "p1"), ("raw data folder", "p2"),
      ("export folder", "p3")]
      = .error "The 'etl_parameters' sheet must contain exactly three rows." :=
  c10_duplicate_description_error _ _ _ (Or.inl rfl)

/-! ## Claim C9 -/

/-- C9: exclusion of debtor names is a case-insensitive substring match
against the fixed list: `"AAA Corp"` is removed (its lower case contains
`aaa`), and `"Zaaaz"` is removed as well even though no list entry equals a
word of it. -/
theorem c9_debtor_substring_exclusion (df : List RawRow) (r1 r2 : RawRow)
    (h1 : r1.debtor_name = "AAA Corp") (h2 : r2.debtor_name = "Zaaaz") :
    filter_col_debtor_name (r1 :: df) = filter_col_debtor_name df ∧
    filter_col_debtor_name (r2 :: df) = filter_col_debtor_name df := by
  have e1 : containsAnyDebtor (lowerStr "AAA Corp") = true := by decide
  have e2 : containsAnyDebtor (lowerStr "Zaaaz") = true := by decide
  constructor
  · simp [filter_col_debtor_name, h1, e1]
  · simp [filter_col_debtor_name, h2, e2]

/-- C9 witness: two concrete rows with the two names are both dropped. -/
theorem c9_debtor_substring_exclusion_witness :
    filter_col_debtor_name
        [{ debtor_name := "AAA Corp", long_credit_account := "5/567/890",
           country_code := "PL", balance := 7, due1_30d := 0, due31_60d := 0,
           due61_90d := 0, due91_120d := 0, due_gt120d := 0, citotal := 0,
           sall12m := 0, secbank := 0, secother := 0 }] = filter_col_debtor_name [] ∧
    filter_col_debtor_name
        [{ debtor_name := "Zaaaz", long_credit_account := "5/567/890",
           country_code := "PL", balance := 7, due1_30d := 0, due31_60d := 0,
           due61_90d := 0, due91_120d := 0, due_gt120d := 0, citotal := 0,
           sall12m := 0, secbank := 0, secother := 0 }] = filter_col_debtor_name [] :=
  c9_debtor_substring_exclusion [] _ _ rfl rfl

/-! ## Claim C5 -/

/-- Tracing a retained row of `pre_transform_data` back to its source row:
its balance is positive, its (lower-cased) debtor name avoids the exclusion
list, and its entity code avoids the excluded codes. -/
theorem mem_pre_transform {df : List RawRow} {m : MainRow}
    (hm : m ∈ pre_transform_data df) :
    ∃ r0 ∈ df, 0 < r0.balance ∧ m.balance = r0.balance ∧
      m.debtor_name = capStr (lowerStr r0.debtor_name) ∧
      containsAnyDebtor (lowerStr r0.debtor_name) = false ∧
      containsAnyEntity m.entity_code = false := by
  rcases List.mem_map.mp hm with ⟨s, hs, rfl⟩
  rcases List.mem_filter.mp hs with ⟨hs2, hent⟩
  rcases List.mem_map.mp hs2 with ⟨r, hr, rfl⟩
  rcases List.mem_map.mp hr with ⟨r', hr', rfl⟩
  rcases List.mem_filter.mp hr' with ⟨hr'', hkeep⟩
  rcases List.mem_map.mp hr'' with ⟨r0, h0, rfl⟩
  rcases List.mem_filter.mp h0 with ⟨h0mem, h0bal⟩
  refine ⟨r0, h0mem, by simpa using h0bal, rfl, rfl, ?_, ?_⟩
  · simpa using hkeep
  · simpa using hent

/-- C5: every row retained after the pre-transform has a positive balance, a
debtor name clear of the exclusion list (case-insensitively) and an entity
code clear of the excluded codes; and the same holds for every row of the
joined-and-calculated table both aggregation views are computed from, so the
excluded rows are gone before either view is built. -/
theorem c5_filters_before_views (df : List RawRow) (d_region : List RegionRow) :
    (∀ m ∈ pre_transform_data df,
        0 < m.balance ∧ containsAnyDebtor (lowerStr m.debtor_name) = false ∧
          containsAnyEntity m.entity_code = false) ∧
    (∀ out, calculate_uninsured_balance
          (join_main_and_dregion (pre_transform_data df) d_region) = .ok out →
        ∀ c ∈ out,
          0 < c.balance ∧ containsAnyDebtor (lowerStr c.debtor_name) = false ∧
            containsAnyEntity c.entity_code = false) := by
  have hmain : ∀ m ∈ pre_transform_data df,
      0 < m.balance ∧ containsAnyDebtor (lowerStr m.debtor_name) = false ∧
        containsAnyEntity m.entity_code = false := by
    intro m hm
    rcases mem_pre_transform hm with ⟨r0, _, hpos, hbal, hname, hkeep, hent⟩
    refine ⟨hbal ▸ hpos, ?_, hent⟩
    rw [hname, lowerStr_capStr_lowerStr, hkeep]
  refine ⟨hmain, ?_⟩
  intro out hout c hc
  rcases calculate_ok_mem hout c hc with ⟨j, hj, t, _, rfl⟩
  rcases mem_join hj with ⟨m, hm, hbal, hname, hent⟩
  rcases hmain m hm with ⟨hpos, hnm, het⟩
  have hb : (calcRowOf j (uninsuredOf t j)).balance = j.balance := rfl
  have hn : (calcRowOf j (uninsuredOf t j)).debtor_name = j.debtor_name := rfl
  have he : (calcRowOf j (uninsuredOf t j)).entity_code = j.entity_code := rfl
  rw [hb, hn, he, hbal, hname, hent]
  exact ⟨hpos, hnm, het⟩

/-- A raw row that passes every pre-transform filter, for the C5 witness. -/
def c5Raw : RawRow :=
  { long_credit_account := "5/567/890", debtor_name := "Good Corp",
    country_code := "PL", balance := 1000, due1_30d := 0, due31_60d := 0,
    due61_90d := 0, due91_120d := 0, due_gt120d := 0, citotal := 100,
    sall12m := 0, secbank := 150, secother := 50 }

/-- The pre-transformed image of `c5Raw`. -/
def c5Main : MainRow :=
  { debtor_name := "Good corp", country_code := "PL", balance := 1000,
    due1_30d := 0, due31_60d := 0, due61_90d := 0, due91_120d := 0,
    due_gt120d := 0, citotal := 100, sall12m := 0, entity_code := "567",
    credit_account := "890", security := 200 }

/-- C5 witness: the retained row of the concrete one-row table satisfies all
three exclusion invariants. -/
theorem c5_filters_before_views_witness :
    0 < c5Main.balance ∧ containsAnyDebtor (lowerStr c5Main.debtor_name) = false ∧
      containsAnyEntity c5Main.entity_code = false :=
  (c5_filters_before_views [c5Raw] []).1 c5Main (by decide)

/-! ## Claim C1 -/

/-- The spec's example row: encoded account identifier `5/123/456`,
balance 1000, security 150 + 50 = 200, citotal 100. -/
def c1BadRaw : RawRow :=
  { long_credit_account := "5/123/456", debtor_name := "Good Corp",
    country_code := "PL", balance := 1000, due1_30d := 0, due31_60d := 0,
    due61_90d := 0, due91_120d := 0, due_gt120d := 0, citotal := 100,
    sall12m := 0, secbank := 150, secother := 50 }

/-- A region table entry with tax rate `0.10` for entity code `123`. -/
def c1BadRegion : RegionRow :=
  { entity_code := "123", tax_rate := mkRat 1 10, region := "EU" }

/-- C1 counterexample: the row with identifier `5/123/456` has entity code
`123`, which contains the excluded code `1`, so `pre_transform_data` removes
it and the transform computes no uninsured balance at all for it — not 627. -/
theorem c1_counterexample :
    pre_transform_data [c1BadRaw] = [] ∧
    transform_data [c1BadRaw] ⟨2024, 1, 31⟩ [c1BadRegion] = .ok ([], []) := by
  have hpre : pre_transform_data [c1BadRaw] = [] := by decide
  refine ⟨hpre, ?_⟩
  unfold transform_data
  rw [hpre]
  rfl

/-- The example row with an identifier whose entity code survives the
entity-code filter: `5/567/890`, same amounts as the spec's example. -/
def c1GoodRaw : RawRow :=
  { long_credit_account := "5/567/890", debtor_name := "Good Corp",
    country_code := "PL", balance := 1000, due1_30d := 0, due31_60d := 0,
    due61_90d := 0, due91_120d := 0, due_gt120d := 0, citotal := 100,
    sall12m := 0, secbank := 150, secother := 50 }

/-- A region table entry with tax rate `0.10` for entity code `567`. -/
def c1GoodRegion : RegionRow :=
  { entity_code := "567", tax_rate := mkRat 1 10, region := "EU" }

/-- The pre-transformed image of `c1GoodRaw`. -/
def c1Main : MainRow :=
  { debtor_name := "Good corp", country_code := "PL", balance := 1000,
    due1_30d := 0, due31_60d := 0, due61_90d := 0, due91_120d := 0,
    due_gt120d := 0, citotal := 100, sall12m := 0, entity_code := "567",
    credit_account := "890", security := 200 }

/-- The joined image of `c1Main` with tax rate `0.10`. -/
def c1Joined : JoinedRow :=
  { debtor_name := "Good corp", country_code := "PL", balance := 1000,
    due1_30d := 0, due31_60d := 0, due61_90d := 0, due91_120d := 0,
    due_gt120d := 0, citotal := 100, sall12m := 0, entity_code := "567",
    credit_account := "890", security := 200, tax_rate := some (mkRat 1 10),
    region := some "EU" }

/-- The calculated row for the example amounts:
`int(max(0, (1000 - 200) / 1.10 - 100)) = int(6900/11) = 627`. -/
def c1Calc : CalcRow :=
  { debtor_name := "Good corp", country_code := "PL", balance := 1000,
    due1_30d := 0, due31_60d := 0, due61_90d := 0, due91_120d := 0,
    due_gt120d := 0, citotal := 100, sall12m := 0, entity_code := "567",
    credit_account := "890", security := 200, region := some "EU",
    uninsured_balance := 627 }

/-- C1 amended: for the example amounts on a row whose entity code is not
excluded (identifier `5/567/890`, entity code `567`), the transform computes
`uninsured_balance = max(0, (1000-200)/1.10 - 100)` truncated to `627`; the
spec's own identifier `5/123/456` is removed by the entity-code filter before
the calculation (see the counterexample). -/
theorem c1_example_value :
    calculate_uninsured_balance
        (join_main_and_dregion (pre_transform_data [c1GoodRaw]) [c1GoodRegion])
      = .ok [c1Calc] ∧
    c1Calc.uninsured_balance = 627 := by
  have hpre : pre_transform_data [c1GoodRaw] = [c1Main] := by decide
  have hjoin : join_main_and_dregion [c1Main] [c1GoodRegion] = [c1Joined] := by decide
  have htax : c1Joined.tax_rate = some (mkRat 1 10) := rfl
  have h0 : ¬(1 + mkRat 1 10 = (0 : ℚ)) := by norm_num [Rat.mkRat_eq_div]
  have hval : uninsuredOf (mkRat 1 10) c1Joined = 627 := by
    unfold uninsuredOf
    have h1 : ((c1Joined.balance : ℚ) - (c1Joined.security : ℚ)) / (1 + mkRat 1 10)
        - (c1Joined.citotal : ℚ) = 6900 / 11 := by
      norm_num [c1Joined, Rat.mkRat_eq_div]
    rw [h1]
    have h2 : qmax (6900 / 11 : ℚ) 0 = 6900 / 11 := by
      unfold qmax
      rw [if_neg]
      norm_num
    rw [h2]
    unfold ratTrunc
    have hnum : ((6900 / 11 : ℚ)).num = 6900 := by norm_num
    have hden : ((6900 / 11 : ℚ)).den = 11 := by norm_num
    rw [hnum, hden]
    decide
  refine ⟨?_, rfl⟩
  rw [hpre, hjoin]
  simp only [calculate_uninsured_balance, htax]
  rw [if_neg h0, hval]
  rfl

/-! ## Claim C3 -/

/-- C3: for every table and every region, the per-region group of the
top-40-by-region view has at most 40 rows, is sorted by balance descending,
and no row of the region's group left out has a balance strictly larger than
any row taken; the view itself is the concatenation of these groups over the
distinct region keys. -/
theorem c3_top40_by_region (df : List CalcRow) (d : DateYMD) (r : String) :
    (top40ForRegion df r).length ≤ 40 ∧
    (top40ForRegion df r).Pairwise balGE ∧
    (∀ x ∈ rowsOfRegion df r, x ∉ top40ForRegion df r →
      ∀ y ∈ top40ForRegion df r, x.balance ≤ y.balance) ∧
    get_top40_by_region df d
      = ((regionKeys df).flatMap (top40ForRegion df)).map (toTop40Row d) := by
  have htop : top40ForRegion df r
      = (List.insertionSort balGE (rowsOfRegion df r)).take 40 := rfl
  have hsorted : List.Sorted balGE (List.insertionSort balGE (rowsOfRegion df r)) :=
    List.sorted_insertionSort balGE (rowsOfRegion df r)
  refine ⟨?_, ?_, ?_, rfl⟩
  · rw [htop]
    exact List.length_take_le 40 _
  · rw [htop]
    exact List.Pairwise.sublist (List.take_sublist 40 _) hsorted
  · intro x hx hnx y hy
    have hperm := List.perm_insertionSort balGE (rowsOfRegion df r)
    have hxs : x ∈ List.insertionSort balGE (rowsOfRegion df r) := hperm.mem_iff.mpr hx
    have hsplit : List.insertionSort balGE (rowsOfRegion df r)
        = (List.insertionSort balGE (rowsOfRegion df r)).take 40
          ++ (List.insertionSort balGE (rowsOfRegion df r)).drop 40 :=
      (List.take_append_drop 40 _).symm
    have hxdrop : x ∈ (List.insertionSort balGE (rowsOfRegion df r)).drop 40 := by
      rcases List.mem_append.mp (hsplit ▸ hxs) with hin | hin
      · exact absurd (htop ▸ hin) hnx
      · exact hin
    have hpw := hsplit ▸ hsorted
    exact (List.pairwise_append.mp hpw).2.2 y (htop ▸ hy) x hxdrop

/-- The `i`-th row of the C3 witness table, all in region `EU`. -/
def c3MkRow (i : Nat) : CalcRow :=
  { debtor_name := "Debtor", country_code := "PL", balance := (i : Int),
    due1_30d := 0, due31_60d := 0, due61_90d := 0, due91_120d := 0,
    due_gt120d := 0, citotal := 0, sall12m := 0, entity_code := "567",
    credit_account := "890", security := 0, region := some "EU",
    uninsured_balance := 0 }

/-- A 41-row one-region table, so one row falls outside the top 40. -/
def c3Rows : List CalcRow := (List.range 41).map c3MkRow

/-- C3 witness: on the 41-row table, the `EU` group of the view has at most
40 rows sorted descending, the excluded smallest row does not outrank the
included balance-40 row, and the view is the flattened per-region groups. -/
theorem c3_top40_by_region_witness :
    (top40ForRegion c3Rows "EU").length ≤ 40 ∧
    (top40ForRegion c3Rows "EU").Pairwise balGE ∧
    (c3MkRow 0).balance ≤ (c3MkRow 40).balance ∧
    get_top40_by_region c3Rows ⟨2024, 1, 31⟩
      = ((regionKeys c3Rows).flatMap (top40ForRegion c3Rows)).map
          (toTop40Row ⟨2024, 1, 31⟩) := by
  have h := c3_top40_by_region c3Rows ⟨2024, 1, 31⟩ "EU"
  exact ⟨h.1, h.2.1,
    h.2.2.1 (c3MkRow 0) (by decide) (by decide) (c3MkRow 40) (by decide), h.2.2.2⟩

/-! ## Claim C7 -/

theorem digitB_iff {c : Char} : digitB c = true ↔ 48 ≤ c.toNat ∧ c.toNat ≤ 57 := by
  simp [digitB]

theorem digit_ne {c : Char} (hc : digitB c = true) {d : Char}
    (hd : d.toNat < 48 ∨ 57 < d.toNat) : c ≠ d := by
  rcases digitB_iff.mp hc with ⟨h1, h2⟩
  intro he
  subst he
  rcases hd with h | h <;> omega

theorem digitChar_digitVal {c : Char} (h : digitB c = true) :
    digitChar (digitVal c) = c := by
  rcases digitB_iff.mp h with ⟨h1, _⟩
  unfold digitChar digitVal
  rw [Nat.add_sub_cancel' h1]
  exact Char.ofNat_toNat c

/-- C7 counterexample: `ARM_2024-01-01.csv` matches the spec's pattern
`ARM_YYYY-MM-DD.<ext>` but extraction rejects it (the code's regex requires
`.xlsx`); and within the accepted pattern, digits that form no calendar date
(`2024-13-40`) are accepted by the filename check but fail date conversion. -/
theorem c7_counterexample :
    specMatchesAnyExt "ARM_2024-01-01.csv".toList = true ∧
    get_date_from_filename "ARM_2024-01-01.csv"
      = .error "File name 'ARM_2024-01-01.csv' does not match format ARM_YYYY-MM-DD.xlsx" ∧
    matchesARM "ARM_2024-13-40.xlsx".toList = true ∧
    date_str_datetime "ARM_2024-13-40.xlsx"
      = .error "2024-13-40 cannot be converted. Verify file name." :=
  ⟨by decide, by rfl, by decide, by rfl⟩

/-- C7 amended: for every filename `ARM_YYYY-MM-DD.xlsx` (the code fixes the
extension to `xlsx`), extraction accepts the filename and returns the embedded
ten-character date string; whenever that string converts to a calendar date,
the date renders back to the same `YYYY-MM-DD` string (round-trip). -/
theorem c7_xlsx_roundtrip (y1 y2 y3 y4 m1 m2 d1 d2 : Char)
    (hy1 : digitB y1 = true) (hy2 : digitB y2 = true) (hy3 : digitB y3 = true)
    (hy4 : digitB y4 = true) (hm1 : digitB m1 = true) (hm2 : digitB m2 = true)
    (hd1 : digitB d1 = true) (hd2 : digitB d2 = true) :
    get_date_from_filename (String.mk ('A' :: 'R' :: 'M' :: '_' :: y1 :: y2 :: y3 :: y4
        :: '-' :: m1 :: m2 :: '-' :: d1 :: d2 :: xlsxTail))
      = .ok (String.mk [y1, y2, y3, y4, '-', m1, m2, '-', d1, d2]) ∧
    ∀ dt : DateYMD,
      parseDateYMD (String.mk [y1, y2, y3, y4, '-', m1, m2, '-', d1, d2]) = some dt →
      renderDateYMD dt = String.mk [y1, y2, y3, y4, '-', m1, m2, '-', d1, d2] := by
  have hmatch : matchesARM ('A' :: 'R' :: 'M' :: '_' :: y1 :: y2 :: y3 :: y4
      :: '-' :: m1 :: m2 :: '-' :: d1 :: d2 :: xlsxTail) = true := by
    simp [matchesARM, hy1, hy2, hy3, hy4, hm1, hm2, hd1, hd2]
  have hu : '_' ∉ (y1 :: y2 :: y3 :: y4 :: '-' :: m1 :: m2 :: '-' :: d1 :: d2 :: xlsxTail) := by
    intro hmem
    simp only [List.mem_cons] at hmem
    rcases hmem with h | h | h | h | h | h | h | h | h | h | h
    · exact digit_ne hy1 (by decide) h.symm
    · exact digit_ne hy2 (by decide) h.symm
    · exact digit_ne hy3 (by decide) h.symm
    · exact digit_ne hy4 (by decide) h.symm
    · exact absurd h (by decide)
    · exact digit_ne hm1 (by decide) h.symm
    · exact digit_ne hm2 (by decide) h.symm
    · exact absurd h (by decide)
    · exact digit_ne hd1 (by decide) h.symm
    · exact digit_ne hd2 (by decide) h.symm
    · exact absurd h (by decide)
  have hdot : '.' ∉ [y1, y2, y3, y4, '-', m1, m2, '-', d1, d2] := by
    intro hmem
    simp only [List.mem_cons, List.not_mem_nil, or_false] at hmem
    rcases hmem with h | h | h | h | h | h | h | h | h | h
    · exact digit_ne hy1 (by decide) h.symm
    · exact digit_ne hy2 (by decide) h.symm
    · exact digit_ne hy3 (by decide) h.symm
    · exact digit_ne hy4 (by decide) h.symm
    · exact absurd h (by decide)
    · exact digit_ne hm1 (by decide) h.symm
    · exact digit_ne hm2 (by decide) h.symm
    · exact absurd h (by decide)
    · exact digit_ne hd1 (by decide) h.symm
    · exact digit_ne hd2 (by decide) h.symm
  have hs1 : splitChar '_' ('A' :: 'R' :: 'M' :: '_' :: y1 :: y2 :: y3 :: y4
      :: '-' :: m1 :: m2 :: '-' :: d1 :: d2 :: xlsxTail)
      = ['A', 'R', 'M'] :: splitChar '_' (y1 :: y2 :: y3 :: y4
        :: '-' :: m1 :: m2 :: '-' :: d1 :: d2 :: xlsxTail) := by
    have h1 : ('A' :: 'R' :: 'M' :: '_' :: y1 :: y2 :: y3 :: y4
        :: '-' :: m1 :: m2 :: '-' :: d1 :: d2 :: xlsxTail)
        = ['A', 'R', 'M'] ++ '_' :: (y1 :: y2 :: y3 :: y4
          :: '-' :: m1 :: m2 :: '-' :: d1 :: d2 :: xlsxTail) := rfl
    rw [h1, splitChar_append (by decide)]
  have hs2 : splitChar '_' (y1 :: y2 :: y3 :: y4
      :: '-' :: m1 :: m2 :: '-' :: d1 :: d2 :: xlsxTail)
      = [y1 :: y2 :: y3 :: y4 :: '-' :: m1 :: m2 :: '-' :: d1 :: d2 :: xlsxTail] :=
    splitChar_of_not_mem hu
  have hs3 : splitChar '.' (y1 :: y2 :: y3 :: y4
      :: '-' :: m1 :: m2 :: '-' :: d1 :: d2 :: xlsxTail)
      = [y1, y2, y3, y4, '-', m1, m2, '-', d1, d2]
        :: splitChar '.' ['x', 'l', 's', 'x'] := by
    have h1 : (y1 :: y2 :: y3 :: y4 :: '-' :: m1 :: m2 :: '-' :: d1 :: d2 :: xlsxTail)
        = [y1, y2, y3, y4, '-', m1, m2, '-', d1, d2] ++ '.' :: ['x', 'l', 's', 'x'] := rfl
    rw [h1, splitChar_append hdot]
  constructor
  · unfold get_date_from_filename
    rw [if_pos (by exact hmatch)]
    rw [show (String.mk ('A' :: 'R' :: 'M' :: '_' :: y1 :: y2 :: y3 :: y4
        :: '-' :: m1 :: m2 :: '-' :: d1 :: d2 :: xlsxTail)).toList
        = ('A' :: 'R' :: 'M' :: '_' :: y1 :: y2 :: y3 :: y4
          :: '-' :: m1 :: m2 :: '-' :: d1 :: d2 :: xlsxTail) from rfl]
    rw [hs1, hs2]
    simp only [List.getD_cons_succ, List.getD_cons_zero]
    rw [hs3]
    simp only [List.getD_cons_zero]
  · intro dt hdt
    have hb1 := digitB_iff.mp hy1
    have hb2 := digitB_iff.mp hy2
    have hb3 := digitB_iff.mp hy3
    have hb4 := digitB_iff.mp hy4
    have hb5 := digitB_iff.mp hm1
    have hb6 := digitB_iff.mp hm2
    have hb7 := digitB_iff.mp hd1
    have hb8 := digitB_iff.mp hd2
    simp only [parseDateYMD, String.toList, hy1, hy2, hy3, hy4, hm1, hm2, hd1, hd2,
      beq_self_eq_true, Bool.true_and, Bool.and_true, Bool.and_self, if_true] at hdt
    by_cases hv : validDate (((digitVal y1 * 10 + digitVal y2) * 10 + digitVal y3) * 10
        + digitVal y4) (digitVal m1 * 10 + digitVal m2)
        (digitVal d1 * 10 + digitVal d2) = true
    · rw [if_pos hv] at hdt
      injection hdt with h'
      subst h'
      unfold renderDateYMD
      dsimp only
      have e1 : (((digitVal y1 * 10 + digitVal y2) * 10 + digitVal y3) * 10
          + digitVal y4) / 1000 % 10 = digitVal y1 := by
        unfold digitVal
        omega
      have e2 : (((digitVal y1 * 10 + digitVal y2) * 10 + digitVal y3) * 10
          + digitVal y4) / 100 % 10 = digitVal y2 := by
        unfold digitVal
        omega
      have e3 : (((digitVal y1 * 10 + digitVal y2) * 10 + digitVal y3) * 10
          + digitVal y4) / 10 % 10 = digitVal y3 := by
        unfold digitVal
        omega
      have e4 : (((digitVal y1 * 10 + digitVal y2) * 10 + digitVal y3) * 10
          + digitVal y4) % 10 = digitVal y4 := by
        unfold digitVal
        omega
      have e5 : (digitVal m1 * 10 + digitVal m2) / 10 % 10 = digitVal m1 := by
        unfold digitVal
        omega
      have e6 : (digitVal m1 * 10 + digitVal m2) % 10 = digitVal m2 := by
        unfold digitVal
        omega
      have e7 : (digitVal d1 * 10 + digitVal d2) / 10 % 10 = digitVal d1 := by
        unfold digitVal
        omega
      have e8 : (digitVal d1 * 10 + digitVal d2) % 10 = digitVal d2 := by
        unfold digitVal
        omega
      simp only [e1, e2, e3, e4, e5, e6, e7, e8, digitChar_digitVal hy1,
        digitChar_digitVal hy2, digitChar_digitVal hy3, digitChar_digitVal hy4,
        digitChar_digitVal hm1, digitChar_digitVal hm2, digitChar_digitVal hd1,
        digitChar_digitVal hd2]
    · rw [if_neg hv] at hdt
      cases hdt

/-- C7 witness: the amended statement at the concrete filename
`ARM_2024-01-31.xlsx`, with the round-trip fully evaluated. -/
theorem c7_xlsx_roundtrip_witness :
    get_date_from_filename (String.mk ('A' :: 'R' :: 'M' :: '_' :: '2' :: '0' :: '2' :: '4'
        :: '-' :: '0' :: '1' :: '-' :: '3' :: '1' :: xlsxTail))
      = .ok (String.mk ['2', '0', '2', '4', '-', '0', '1', '-', '3', '1']) ∧
    renderDateYMD ⟨2024, 1, 31⟩
      = String.mk ['2', '0', '2', '4', '-', '0', '1', '-', '3', '1'] := by
  have h := c7_xlsx_roundtrip '2' '0' '2' '4' '0' '1' '3' '1' (by decide) (by decide)
    (by decide) (by decide) (by decide) (by decide) (by decide) (by decide)
  exact ⟨h.1, h.2 ⟨2024, 1, 31⟩ (by decide)⟩

/-! ## Claim C8 -/

/-- C8 counterexample: the filename `" ARM_2024-01-01.xlsx"` (leading space)
matches neither the code's regex nor the spec's pattern, yet `extract_data`
does not fail with a format error: the name is whitespace-trimmed first, so
the spreadsheet is read and extraction succeeds. -/
theorem c8_counterexample :
    matchesARM " ARM_2024-01-01.xlsx".toList = false ∧
    specMatchesAnyExt " ARM_2024-01-01.xlsx".toList = false ∧
    extract_data (fun _ _ => .ok []) "raw" " ARM_2024-01-01.xlsx"
      = .ok ([], "2024-01-01", ⟨2024, 1, 1⟩) :=
  ⟨by decide, by decide, by rfl⟩

/-- C8 amended: for every filename whose whitespace-trimmed form does not
match the pattern, `extract_data` fails with the filename-format error, and
its result does not depend on the spreadsheet reader at all — no table is
read or produced. -/
theorem c8_format_error_before_read (folder file : String)
    (read1 read2 : String → String → Except String (List RawRow))
    (h : matchesARM (pyStrip file).toList = false) :
    extract_data read1 folder file
      = .error ("File name '" ++ pyStrip file
          ++ "' does not match format ARM_YYYY-MM-DD.xlsx") ∧
    extract_data read1 folder file = extract_data read2 folder file := by
  have hdate : date_str_datetime (pyStrip file)
      = .error ("File name '" ++ pyStrip file
          ++ "' does not match format ARM_YYYY-MM-DD.xlsx") := by
    have h' : matchesARM (pyStrip file).data = false := h
    unfold date_str_datetime get_date_from_filename
    rw [if_neg (by simp [h'])]
  constructor
  · unfold extract_data
    rw [hdate]
  · unfold extract_data
    rw [hdate]

/-- C8 witness: a concrete non-matching filename with two different readers. -/
theorem c8_format_error_before_read_witness :
    extract_data (fun _ _ => .ok []) "raw" "notes.txt"
      = .error ("File name '" ++ pyStrip "notes.txt"
          ++ "' does not match format ARM_YYYY-MM-DD.xlsx") ∧
    extract_data (fun _ _ => .ok []) "raw" "notes.txt"
      = extract_data (fun _ _ => .error "io") "raw" "notes.txt" :=
  c8_format_error_before_read "raw" "notes.txt" _ _ (by decide)

end EtlArm
